import Mathlib

/-!
Shallow embedding of the event query/update engine of the timeline-app
backend (src/backend/src/main.rs), together with theorems settling the
spec claims about it.

Modelling conventions:
* `chrono::NaiveDateTime` is modelled as `Nat` (an abstract, totally
  ordered instant); `uuid::Uuid` is modelled as `Nat`.
* The Postgres store is modelled as a `List Event`; handlers that write
  return the new store next to their result.
* A Rust panic (out-of-bounds `Vec` indexing in the `.bind(params[i])`
  chains) is modelled as the outcome `ApiError.crash`; the handlers'
  `map_err(|_| StatusCode::INTERNAL_SERVER_ERROR)` is
  `ApiError.internalError` and `map_err(|_| StatusCode::NOT_FOUND)` is
  `ApiError.notFound`.
* Machine-integer overflow of `i32` pagination arithmetic and the exact
  rounding of the `f64` division in the `pages` computation are not
  modelled: the integers are unbounded and the division-then-ceiling is
  exact (it agrees with `f64` for every count below 2^53).
-/

abbrev Timestamp := Nat

abbrev Uuid := Nat

/-- The persisted event record (struct `Event` in main.rs). -/
structure Event where
  id : Uuid
  title : String
  description : Option String
  start_date : Timestamp
  end_date : Option Timestamp
  location : Option String
  image_url : Option String
  category : Option String
  created_at : Timestamp
  updated_at : Timestamp
deriving DecidableEq, Repr

/-- The create payload (struct `EventCreate`): `title` and `start_date` required. -/
structure EventCreate where
  title : String
  description : Option String
  start_date : Timestamp
  end_date : Option Timestamp
  location : Option String
  image_url : Option String
  category : Option String
deriving DecidableEq, Repr

/-- The partial-update payload (struct `EventUpdate`): every field optional. -/
structure EventUpdate where
  title : Option String
  description : Option String
  start_date : Option Timestamp
  end_date : Option Timestamp
  location : Option String
  image_url : Option String
  category : Option String
deriving DecidableEq, Repr

/-- The list-endpoint query parameters of `get_events`; the date bounds
arrive as raw strings, exactly as in the handler's signature. -/
structure ListRequest where
  page : Option Int
  limit : Option Int
  search : Option String
  start_date : Option String
  end_date : Option String
deriving DecidableEq, Repr

/-- The list-endpoint response body (struct `PaginatedResponse`). -/
structure PaginatedResponse where
  data : List Event
  total : Int
  page : Int
  limit : Int
  pages : Int
deriving DecidableEq, Repr

/-- Observable failure outcomes of a handler. `crash` models a Rust panic
(out-of-bounds indexing of the parameter vector); the other two are the
HTTP statuses the handlers map store errors to. -/
inductive ApiError where
  | internalError
  | notFound
  | crash
deriving DecidableEq, Repr

/-- `page.unwrap_or(1).max(1)` from the handler. -/
def normPage (req : ListRequest) : Int :=
  let p := req.page.getD 1
  if p < 1 then 1 else p

/-- `limit.unwrap_or(20).clamp(1, 100)` from the handler. -/
def normLimit (req : ListRequest) : Int :=
  let l := req.limit.getD 20
  if l < 1 then 1 else if l > 100 then 100 else l

/-- `let offset = (page - 1) * limit;` from the handler. -/
def listOffset (req : ListRequest) : Int :=
  (normPage req - 1) * normLimit req

/-- `format!("%\x7b\x7d%", search)`: the ILIKE pattern value pushed as a parameter. -/
def searchPattern (s : String) : String :=
  "%" ++ s ++ "%"

/-- The first conditional of the query builder: when `search` is present,
append the ILIKE clause to the text and the pattern to the parameters. -/
def addSearchClause (search : Option String) (qp : String × List String) :
    String × List String :=
  match search with
  | some s => (qp.1 ++ " WHERE title ILIKE $1 OR description ILIKE $1",
               qp.2 ++ [searchPattern s])
  | none => qp

/-- The second conditional of the query builder: when both date bounds are
present, append the BETWEEN clause and the two bound parameters; if at
most one bound is supplied nothing is appended. -/
def addDateClause (sd ed : Option String) (qp : String × List String) :
    String × List String :=
  match sd, ed with
  | some st, some en => (qp.1 ++ " AND start_date BETWEEN $2 AND $3", qp.2 ++ [st, en])
  | _, _ => qp

/-- The query text and ordered parameter vector built by `get_events`
(lines 69-85 of main.rs): base select, optional search clause, optional
date clause, then the ORDER BY / LIMIT / OFFSET tail with the limit and
offset values pushed last. -/
def buildListQuery (req : ListRequest) : String × List String :=
  let qp := addDateClause req.start_date req.end_date
      (addSearchClause req.search ("SELECT * FROM events", []))
  (qp.1 ++ " ORDER BY start_date DESC LIMIT $4 OFFSET $5",
   qp.2 ++ [toString (normLimit req), toString (listOffset req)])

/-- The bind chain `.bind(params[0].clone()) ... .bind(params[4].clone())`:
it indexes the parameter vector at 0..4 unconditionally, so it panics
unless at least five parameters were pushed; otherwise it binds exactly
the first five. -/
def bindFive (params : List String) : Option (List String) :=
  if 5 ≤ params.length then some (params.take 5) else none

/-- Case-insensitive substring test: the Postgres semantics of
`s ILIKE p` for a pattern of the shape built by `searchPattern`
(the search text itself is assumed free of wildcard metacharacters). -/
def containsCI (s sub : String) : Bool :=
  if sub.isEmpty then true
  else ((s.toLower).splitOn (sub.toLower)).length != 1

/-- Postgres evaluation of the WHERE clause of the one executable query
shape, `title ILIKE $1 OR description ILIKE $1 AND start_date BETWEEN $2
AND $3`: AND binds tighter than OR, so the date restriction applies only
to the description disjunct, and an ILIKE on a NULL description is not a
match. -/
def rowMatches (search : String) (lo hi : Timestamp) (e : Event) : Bool :=
  containsCI e.title search ||
    ((match e.description with
      | some d => containsCI d search
      | none => false) &&
     (decide (lo ≤ e.start_date) && decide (e.start_date ≤ hi)))

/-- Insertion step of a sort by `start_date` descending. -/
def insertDesc (e : Event) : List Event → List Event
  | [] => [e]
  | x :: xs => if e.start_date ≤ x.start_date then x :: insertDesc e xs else e :: x :: xs

/-- `ORDER BY start_date DESC` over the matching rows. -/
def sortByStartDesc (l : List Event) : List Event :=
  l.foldr insertDesc []

/-- `(total as f64 / limit as f64).ceil() as i32` for a nonnegative total
and positive limit: exact ceiling division. -/
def pagesOf (total limit : Int) : Int :=
  (total + limit - 1) / limit

/-- The `get_events` handler: normalises pagination, builds the dynamic
query, binds five parameters (a panic when fewer were pushed), executes
it against the store and pairs the rows with the separate unfiltered
`SELECT COUNT(*)` total. Only the search-plus-both-bounds shape pushes
five parameters, so it is the only shape that reaches execution; there
the text parameters are cast to timestamps by the store. -/
def get_events (store : List Event) (req : ListRequest) :
    Except ApiError PaginatedResponse :=
  match bindFive (buildListQuery req).2 with
  | none => .error .crash
  | some _ =>
    match req.search, req.start_date, req.end_date with
    | some s, some st, some en =>
      match st.toNat?, en.toNat? with
      | some lo, some hi =>
        let limit := normLimit req
        let offset := listOffset req
        let rows := sortByStartDesc (store.filter (rowMatches s lo hi))
        let rows := (rows.drop offset.toNat).take limit.toNat
        .ok { data := rows, total := (store.length : Int), page := normPage req,
              limit := limit, pages := pagesOf (store.length : Int) limit }
      | _, _ => .error .internalError
    | _, _, _ => .error .crash

/-- Store-level errors of a single `fetch_one` call. -/
inductive DbError where
  | rowNotFound
  | connectivity
deriving DecidableEq, Repr

/-- `fetch_one` of `SELECT * FROM events WHERE id = $1`: a connectivity
failure or, when no row matches, a row-not-found error. `storeOk` models
whether the store is reachable. -/
def fetchEventRow (store : List Event) (storeOk : Bool) (id : Uuid) :
    Except DbError Event :=
  if storeOk then
    match store.find? (fun e => e.id == id) with
    | some e => .ok e
    | none => .error .rowNotFound
  else .error .connectivity

/-- The `get_event` handler: every store error, of either kind, is mapped
to `NOT_FOUND` by `map_err(|_| StatusCode::NOT_FOUND)`. -/
def get_event (store : List Event) (storeOk : Bool) (id : Uuid) :
    Except ApiError Event :=
  match fetchEventRow store storeOk id with
  | .ok e => .ok e
  | .error _ => .error .notFound

/-- The `create_event` handler: no field validation happens; a fresh id
and a single `now` are taken from the environment (modelled as arguments)
and the row is inserted with `created_at = updated_at = now`. A primary
key collision is the one insert failure the model keeps, surfacing as the
internal-error status. -/
def create_event (store : List Event) (newId : Uuid) (now : Timestamp)
    (payload : EventCreate) : Except ApiError Event × List Event :=
  let ev : Event :=
    { id := newId, title := payload.title, description := payload.description,
      start_date := payload.start_date, end_date := payload.end_date,
      location := payload.location, image_url := payload.image_url,
      category := payload.category, created_at := now, updated_at := now }
  if store.any (fun e => e.id == newId) then (.error .internalError, store)
  else (.ok ev, store ++ [ev])

/-- A typed view of the values the update handler pushes into its
parameter vector (a timestamp, the field strings, the trailing uuid). -/
inductive SqlParam where
  | pTime (t : Timestamp)
  | pStr (s : String)
  | pUuid (u : Uuid)
deriving DecidableEq, Repr

/-- The update statement and ordered parameter vector built by
`update_event` (lines 183-217 of main.rs): the mandatory
`updated_at = $1`, one fixed-placeholder assignment per present field in
the order title, description, start_date, end_date, location, image_url,
category, then the `WHERE id = $9 RETURNING *` tail with the id pushed
last. -/
def buildUpdate (now : Timestamp) (payload : EventUpdate) (id : Uuid) :
    String × List SqlParam :=
  let qp : String × List SqlParam :=
    ("UPDATE events SET updated_at = $1", [.pTime now])
  let qp : String × List SqlParam := match payload.title with
    | some t => (qp.1 ++ ", title = $2", qp.2 ++ [.pStr t])
    | none => qp
  let qp : String × List SqlParam := match payload.description with
    | some d => (qp.1 ++ ", description = $3", qp.2 ++ [.pStr d])
    | none => qp
  let qp : String × List SqlParam := match payload.start_date with
    | some t => (qp.1 ++ ", start_date = $4", qp.2 ++ [.pTime t])
    | none => qp
  let qp : String × List SqlParam := match payload.end_date with
    | some t => (qp.1 ++ ", end_date = $5", qp.2 ++ [.pTime t])
    | none => qp
  let qp : String × List SqlParam := match payload.location with
    | some s => (qp.1 ++ ", location = $6", qp.2 ++ [.pStr s])
    | none => qp
  let qp : String × List SqlParam := match payload.image_url with
    | some s => (qp.1 ++ ", image_url = $7", qp.2 ++ [.pStr s])
    | none => qp
  let qp : String × List SqlParam := match payload.category with
    | some s => (qp.1 ++ ", category = $8", qp.2 ++ [.pStr s])
    | none => qp
  (qp.1 ++ " WHERE id = $9 RETURNING *", qp.2 ++ [.pUuid id])

/-- The bind chain `.bind(&params[0]) ... .bind(&params[8])`: it indexes
the parameter vector at 0..8 unconditionally, so it panics unless at
least nine parameters were pushed. -/
def bindNine (params : List SqlParam) : Option (List SqlParam) :=
  if 9 ≤ params.length then some (params.take 9) else none

/-- Row semantics of the executed update statement: each assignment writes
its supplied value, absent fields keep the old column value, and
`updated_at` is refreshed. (The only statement that survives the bind
step has all seven fields present, and there its placeholders line up
with the bind positions, so this is exact for every executed statement.) -/
def applyPatch (e : Event) (now : Timestamp) (p : EventUpdate) : Event :=
  { e with
    title := p.title.getD e.title,
    description := match p.description with
      | some d => some d
      | none => e.description,
    start_date := p.start_date.getD e.start_date,
    end_date := match p.end_date with
      | some t => some t
      | none => e.end_date,
    location := match p.location with
      | some s => some s
      | none => e.location,
    image_url := match p.image_url with
      | some s => some s
      | none => e.image_url,
    category := match p.category with
      | some s => some s
      | none => e.category,
    updated_at := now }

/-- The `update_event` handler: build the dynamic statement, bind nine
parameters (a panic when fewer were pushed), execute it; `fetch_one` on
the RETURNING row turns a missing id into a store error, which the
handler maps to `INTERNAL_SERVER_ERROR`. -/
def update_event (store : List Event) (now : Timestamp) (id : Uuid)
    (payload : EventUpdate) : Except ApiError Event × List Event :=
  match bindNine (buildUpdate now payload id).2 with
  | none => (.error .crash, store)
  | some _ =>
    match store.find? (fun e => e.id == id) with
    | none => (.error .internalError, store)
    | some e =>
      (.ok (applyPatch e now payload),
       store.map (fun x => if x.id == id then applyPatch x now payload else x))

/-- The `delete_event` handler: one `DELETE ... WHERE id = $1`, the
affected-row count is discarded and success is reported unconditionally. -/
def delete_event (store : List Event) (id : Uuid) :
    Except ApiError Unit × List Event :=
  (.ok (), store.filter (fun e => !(e.id == id)))

/-! ### Concrete fixtures used by the claim theorems -/

/-- A store of 45 distinct events, as in the pagination example of the spec. -/
def store45 : List Event :=
  (List.range 45).map (fun i =>
    { id := i, title := "event", description := none, start_date := i, end_date := none,
      location := none, image_url := none, category := none, created_at := 0, updated_at := 0 })

/-- The request the repository's own frontend issues: GET /api/events with
no query parameters at all. -/
def defaultListReq : ListRequest :=
  { page := none, limit := none, search := none, start_date := none, end_date := none }

/-- A list request carrying only the two date bounds. -/
def dateOnlyReq : ListRequest :=
  { page := none, limit := none, search := none, start_date := some "10", end_date := some "20" }

/-- A list request carrying only a search string. -/
def searchOnlyReq : ListRequest :=
  { page := none, limit := none, search := some "alpha", start_date := none, end_date := none }

/-- A sample stored event. -/
def ev1 : Event :=
  { id := 1, title := "launch", description := some "first", start_date := 10, end_date := none,
    location := none, image_url := none, category := none, created_at := 5, updated_at := 5 }

/-- The patch with zero present fields. -/
def emptyPatch : EventUpdate :=
  { title := none, description := none, start_date := none, end_date := none,
    location := none, image_url := none, category := none }

/-- A patch with every field present. -/
def fullPatch : EventUpdate :=
  { title := some "moved", description := some "changed", start_date := some 11,
    end_date := some 12, location := some "hall", image_url := some "img",
    category := some "cat" }

/-- A list request with a search string, both date bounds, and explicit
pagination. -/
def fullListReq : ListRequest :=
  { page := some 2, limit := some 10, search := some "alpha",
    start_date := some "3", end_date := some "7" }

/-- A create payload whose title is the empty string. -/
def emptyTitleCreate : EventCreate :=
  { title := "", description := none, start_date := 10, end_date := none,
    location := none, image_url := none, category := none }

/-- The parameters contributed by the optional filters of a list request,
in the order the handler pushes them. -/
def filterParams (req : ListRequest) : List String :=
  (match req.search with
   | some s => [searchPattern s]
   | none => []) ++
  (match req.start_date, req.end_date with
   | some st, some en => [st, en]
   | _, _ => [])

/-- The per-field parameters a patch contributes to the update statement,
in the fixed field order title, description, start_date, end_date,
location, image_url, category. -/
def patchParamsList (p : EventUpdate) : List SqlParam :=
  (match p.title with | some t => [SqlParam.pStr t] | none => []) ++
  (match p.description with | some d => [SqlParam.pStr d] | none => []) ++
  (match p.start_date with | some t => [SqlParam.pTime t] | none => []) ++
  (match p.end_date with | some t => [SqlParam.pTime t] | none => []) ++
  (match p.location with | some s => [SqlParam.pStr s] | none => []) ++
  (match p.image_url with | some s => [SqlParam.pStr s] | none => []) ++
  (match p.category with | some s => [SqlParam.pStr s] | none => [])

/-- The record the create handler inserts: the payload fields with the
fresh id and created_at = updated_at = now. -/
def eventOfCreate (newId : Uuid) (now : Timestamp) (payload : EventCreate) : Event :=
  { id := newId, title := payload.title, description := payload.description,
    start_date := payload.start_date, end_date := payload.end_date,
    location := payload.location, image_url := payload.image_url,
    category := payload.category, created_at := now, updated_at := now }

/-! ### Claim theorems -/

/-- Claim C1: the spec promises that a list with limit=20, page=1 over 45
stored events returns 20 rows with total=45 and pages=3 (total counted
unfiltered, pages by ceiling division). The code cannot deliver this: a
request with no filters pushes only the limit and offset parameters, yet
the handler unconditionally binds five, so indexing the two-element
parameter vector at position 2 panics and no response is produced. -/
theorem getEvents_default_request_crashes :
    get_events store45 defaultListReq = .error .crash := by
  rfl

/-- Claim C3: an update whose patch has zero present fields pushes only
the timestamp and the id, yet the handler unconditionally binds nine
parameters, so indexing the two-element parameter vector at position 2
panics instead of refreshing updated_at. -/
theorem updateEvent_empty_patch_crashes :
    update_event [ev1] 6 1 emptyPatch = (.error .crash, [ev1]) := by
  rfl

/-- Claim C5: a list request with both date bounds and no search builds
the malformed text "SELECT * FROM events AND start_date BETWEEN ..."
(no WHERE keyword) and pushes four parameters, so binding five panics;
the promised inclusive date filtering never happens. -/
theorem getEvents_date_only_crashes :
    get_events store45 dateOnlyReq = .error .crash ∧
    (buildListQuery dateOnlyReq).1 =
      "SELECT * FROM events AND start_date BETWEEN $2 AND $3 ORDER BY start_date DESC LIMIT $4 OFFSET $5" := by
  exact ⟨rfl, rfl⟩

/-- Claim C8: the search pattern is indeed a bound positional parameter
(never interpolated into the text), but a request supplying only a search
string pushes three parameters, so binding five panics and the promised
case-insensitive filtering never happens. -/
theorem getEvents_search_only_crashes :
    get_events store45 searchOnlyReq = .error .crash ∧
    (buildListQuery searchOnlyReq).2 = ["%alpha%", "20", "0"] ∧
    (buildListQuery searchOnlyReq).1 =
      "SELECT * FROM events WHERE title ILIKE $1 OR description ILIKE $1 ORDER BY start_date DESC LIMIT $4 OFFSET $5" := by
  exact ⟨rfl, rfl, rfl⟩

/-- Claim C9: delete always reports success: the affected-row count is
discarded, so deleting an absent id is indistinguishable from deleting an
existing one; a delete removes exactly the rows carrying the id (hard
delete) and keeps every other row; when no row matches, the store is
unchanged and the reported outcome is still success. -/
theorem deleteEvent_reports_success (store : List Event) (id : Uuid) :
    (delete_event store id).1 = .ok () ∧
    (∀ e ∈ (delete_event store id).2, e.id ≠ id) ∧
    (∀ e ∈ store, e.id ≠ id → e ∈ (delete_event store id).2) ∧
    ((∀ e ∈ store, e.id ≠ id) → (delete_event store id).2 = store) := by
  refine ⟨rfl, ?_, ?_, ?_⟩
  · intro e he
    simp only [delete_event] at he
    have := List.of_mem_filter he
    simpa using this
  · intro e he hne
    simp only [delete_event]
    exact List.mem_filter.2 ⟨he, by simpa using hne⟩
  · intro h
    simp only [delete_event]
    exact List.filter_eq_self.2 (fun e he => by simpa using h e he)

/-- Witness for C9: deleting the absent id 2 from the one-event store
succeeds and leaves the store unchanged. -/
theorem deleteEvent_reports_success_witness :
    (delete_event [ev1] 2).1 = .ok () ∧ (delete_event [ev1] 2).2 = [ev1] :=
  ⟨(deleteEvent_reports_success [ev1] 2).1,
   (deleteEvent_reports_success [ev1] 2).2.2.2 (by decide)⟩

/-- Claim C10: get maps every store failure to the not-found status: any
error outcome of get is notFound, a connectivity failure yields notFound
even though no row was consulted, and a missing row yields notFound as
well — so a caller cannot distinguish a missing event from a broken
store. -/
theorem getEvent_maps_all_failures_to_notFound (store : List Event) (storeOk : Bool)
    (id : Uuid) :
    (∀ err, get_event store storeOk id = .error err → err = .notFound) ∧
    get_event store false id = .error .notFound ∧
    ((∀ e ∈ store, e.id ≠ id) → get_event store storeOk id = .error .notFound) := by
  refine ⟨?_, ?_, ?_⟩
  · intro err h
    unfold get_event at h
    cases hf : fetchEventRow store storeOk id with
    | ok e => rw [hf] at h; cases h
    | error d => rw [hf] at h; cases h; rfl
  · rfl
  · intro h
    have hnone : store.find? (fun e => e.id == id) = none :=
      List.find?_eq_none.2 (fun e he => by simpa using h e he)
    unfold get_event fetchEventRow
    cases storeOk with
    | false => rfl
    | true => simp [hnone]

/-- Witness for C10: on the one-event store, get with the store down
returns notFound, and get of the absent id 2 with the store up also
returns notFound. -/
theorem getEvent_maps_all_failures_to_notFound_witness :
    get_event [ev1] false 1 = .error .notFound ∧ get_event [ev1] true 2 = .error .notFound :=
  ⟨(getEvent_maps_all_failures_to_notFound [ev1] false 1).2.1,
   (getEvent_maps_all_failures_to_notFound [ev1] true 2).2.2 (by decide)⟩

/-- Helper: searching an appended list when the first part has no match. -/
theorem list_find_append_of_none {α} (p : α → Bool) (l1 l2 : List α)
    (h : l1.find? p = none) : (l1 ++ l2).find? p = l2.find? p := by
  induction l1 with
  | nil => rfl
  | cons a l ih =>
    rw [List.cons_append]
    cases hpa : p a with
    | true =>
      rw [List.find?_cons_of_pos _ hpa] at h
      cases h
    | false =>
      have hn : ¬ p a = true := by simp [hpa]
      rw [List.find?_cons_of_neg _ hn] at h
      rw [List.find?_cons_of_neg _ hn]
      exact ih h

/-- Helper: the update statement's parameter vector is the timestamp, the
present fields in fixed order, then the id. -/
theorem buildUpdate_params_shape (now : Timestamp) (p : EventUpdate) (id : Uuid) :
    (buildUpdate now p id).2 = .pTime now :: (patchParamsList p ++ [.pUuid id]) := by
  obtain ⟨t, d, sd, ed, lo, iu, ca⟩ := p
  rcases t with _ | t <;> rcases d with _ | d <;> rcases sd with _ | sd <;>
    rcases ed with _ | ed <;> rcases lo with _ | lo <;> rcases iu with _ | iu <;>
    rcases ca with _ | ca <;> rfl

/-- Claim C2: the builder computes offset as (page - 1) * limit on the
normalised pagination values, always appends the limit and offset as the
final two parameters after whatever filter parameters were pushed, every
supplied filter contributes its parameters, and a bind step that succeeds
binds exactly the built parameter vector, dropping nothing. -/
theorem buildListQuery_param_discipline (req : ListRequest) :
    (buildListQuery req).2 =
      filterParams req ++ [toString (normLimit req), toString (listOffset req)] ∧
    listOffset req = (normPage req - 1) * normLimit req ∧
    (∀ s, req.search = some s → searchPattern s ∈ (buildListQuery req).2) ∧
    (∀ st en, req.start_date = some st → req.end_date = some en →
      st ∈ (buildListQuery req).2 ∧ en ∈ (buildListQuery req).2) ∧
    (∀ bs, bindFive (buildListQuery req).2 = some bs → bs = (buildListQuery req).2) := by
  obtain ⟨page, limit, search, sd, ed⟩ := req
  rcases search with _ | s <;> rcases sd with _ | st <;> rcases ed with _ | en <;>
    refine ⟨?_, rfl, ?_, ?_, ?_⟩ <;>
    simp [buildListQuery, addSearchClause, addDateClause, filterParams, bindFive]

/-- Witness for C2: on a request carrying a search string and both date
bounds, the pattern and both bounds are among the built parameters. -/
theorem buildListQuery_param_discipline_witness :
    searchPattern "alpha" ∈ (buildListQuery fullListReq).2 ∧
    "3" ∈ (buildListQuery fullListReq).2 ∧ "7" ∈ (buildListQuery fullListReq).2 :=
  ⟨(buildListQuery_param_discipline fullListReq).2.2.1 "alpha" rfl,
   ((buildListQuery_param_discipline fullListReq).2.2.2.1 "3" "7" rfl rfl).1,
   ((buildListQuery_param_discipline fullListReq).2.2.2.1 "3" "7" rfl rfl).2⟩

/-- Claim C4 counterexample: updating the absent id 1 in the empty store
with a full patch does not yield the not-found status (it yields the
internal-error status). -/
theorem updateEvent_absent_id_counterexample :
    (update_event [] 6 1 fullPatch).1 = .error .internalError ∧
    (update_event [] 6 1 fullPatch).1 ≠ .error .notFound := by
  refine ⟨rfl, ?_⟩
  intro hc
  have h : (Except.error ApiError.internalError : Except ApiError Event) =
      .error .notFound := hc
  exact absurd (Except.error.inj h) (by decide)

/-- Claim C4 amended: updating an id with no matching stored event never
yields the not-found status: a patch with all fields present reaches the
store and the missing RETURNING row surfaces as an internal error (the
handler maps every store error to 500), any other patch crashes in the
bind step; in both cases the store is unchanged. -/
theorem updateEvent_absent_id (store : List Event) (now : Timestamp) (id : Uuid)
    (p : EventUpdate) (h : ∀ e ∈ store, e.id ≠ id) :
    ((update_event store now id p).1 = .error .internalError ∨
      (update_event store now id p).1 = .error .crash) ∧
    (update_event store now id p).1 ≠ .error .notFound ∧
    (update_event store now id p).2 = store := by
  have hnone : store.find? (fun e => e.id == id) = none :=
    List.find?_eq_none.2 (fun e he => by simpa using h e he)
  unfold update_event
  cases hb : bindNine (buildUpdate now p id).2 with
  | none => exact ⟨Or.inr rfl, by simp, rfl⟩
  | some bs => rw [hnone]; exact ⟨Or.inl rfl, by simp, rfl⟩

/-- Witness for C4 (amended): updating the absent id 2 in the one-event
store fails without the not-found status and leaves the store unchanged. -/
theorem updateEvent_absent_id_witness :
    ((update_event [ev1] 6 2 fullPatch).1 = .error .internalError ∨
      (update_event [ev1] 6 2 fullPatch).1 = .error .crash) ∧
    (update_event [ev1] 6 2 fullPatch).1 ≠ .error .notFound ∧
    (update_event [ev1] 6 2 fullPatch).2 = [ev1] :=
  updateEvent_absent_id [ev1] 6 2 fullPatch (by decide)

/-- Claim C6: the assignment parameters are appended in the fixed field
order title, description, start_date, end_date, location, image_url,
category with the id parameter last; and any successful update writes
exactly the supplied field values, refreshes updated_at, and preserves
id, created_at and every field absent from the patch. -/
theorem updateEvent_success_frame (store : List Event) (now : Timestamp) (id : Uuid)
    (p : EventUpdate) (e e' : Event) (store' : List Event)
    (hfind : store.find? (fun x => x.id == id) = some e)
    (hrun : update_event store now id p = (.ok e', store')) :
    (buildUpdate now p id).2 = .pTime now :: (patchParamsList p ++ [.pUuid id]) ∧
    e'.id = e.id ∧ e'.created_at = e.created_at ∧ e'.updated_at = now ∧
    (∀ v, p.title = some v → e'.title = v) ∧
    (p.title = none → e'.title = e.title) ∧
    (∀ v, p.description = some v → e'.description = some v) ∧
    (p.description = none → e'.description = e.description) ∧
    (∀ v, p.start_date = some v → e'.start_date = v) ∧
    (p.start_date = none → e'.start_date = e.start_date) ∧
    (∀ v, p.end_date = some v → e'.end_date = some v) ∧
    (p.end_date = none → e'.end_date = e.end_date) ∧
    (∀ v, p.location = some v → e'.location = some v) ∧
    (p.location = none → e'.location = e.location) ∧
    (∀ v, p.image_url = some v → e'.image_url = some v) ∧
    (p.image_url = none → e'.image_url = e.image_url) ∧
    (∀ v, p.category = some v → e'.category = some v) ∧
    (p.category = none → e'.category = e.category) := by
  have he' : e' = applyPatch e now p := by
    unfold update_event at hrun
    cases hb : bindNine (buildUpdate now p id).2 with
    | none =>
      rw [hb] at hrun
      exact absurd (congrArg Prod.fst hrun) (by simp)
    | some bs =>
      rw [hb, hfind] at hrun
      have := congrArg Prod.fst hrun
      simp only at this
      exact (Except.ok.inj this).symm
  subst he'
  refine ⟨buildUpdate_params_shape now p id, rfl, rfl, rfl, ?_, ?_, ?_, ?_, ?_, ?_, ?_,
    ?_, ?_, ?_, ?_, ?_, ?_, ?_⟩ <;>
  first
  | (intro v hv; simp [applyPatch, hv])
  | (intro hv; simp [applyPatch, hv])

/-- Witness for C6: on the one-event store, the full patch succeeds, its
title value is written, and created_at is preserved. -/
theorem updateEvent_success_frame_witness :
    (applyPatch ev1 6 fullPatch).title = "moved" ∧
    (applyPatch ev1 6 fullPatch).created_at = ev1.created_at :=
  let h := updateEvent_success_frame [ev1] 6 1 fullPatch ev1 (applyPatch ev1 6 fullPatch)
    [applyPatch ev1 6 fullPatch] rfl rfl
  ⟨h.2.2.2.2.1 "moved" rfl, h.2.2.1⟩

/-- Claim C7 counterexample: create with an empty title is not rejected
with a validation error: it succeeds and persists the event. -/
theorem createEvent_empty_title_accepted :
    (create_event [] 7 3 emptyTitleCreate).1 =
      .ok { id := 7, title := "", description := none, start_date := 10, end_date := none,
            location := none, image_url := none, category := none, created_at := 3,
            updated_at := 3 } ∧
    (create_event [] 7 3 emptyTitleCreate).2 =
      [{ id := 7, title := "", description := none, start_date := 10, end_date := none,
         location := none, image_url := none, category := none, created_at := 3,
         updated_at := 3 }] := by
  exact ⟨rfl, rfl⟩

/-- Claim C7 amended: create performs no field validation (an empty title
is accepted and persisted); with a fresh id it stores the payload
verbatim with created_at = updated_at = now, and a subsequent get on that
id returns the record with identical field values and created_at equal to
updated_at. -/
theorem create_then_get (store : List Event) (newId : Uuid) (now : Timestamp)
    (payload : EventCreate) (h : ∀ e ∈ store, e.id ≠ newId) :
    ∃ ev store',
      create_event store newId now payload = (.ok ev, store') ∧
      ev.id = newId ∧ ev.title = payload.title ∧ ev.description = payload.description ∧
      ev.start_date = payload.start_date ∧ ev.end_date = payload.end_date ∧
      ev.location = payload.location ∧ ev.image_url = payload.image_url ∧
      ev.category = payload.category ∧ ev.created_at = now ∧ ev.updated_at = now ∧
      ev.created_at = ev.updated_at ∧
      get_event store' true newId = .ok ev := by
  have hany : store.any (fun e => e.id == newId) = false := by
    rw [List.any_eq_false]
    intro e he
    simpa using h e he
  refine ⟨eventOfCreate newId now payload, store ++ [eventOfCreate newId now payload],
          ?_, rfl, rfl, rfl, rfl, rfl, rfl, rfl, rfl, rfl, rfl, rfl, ?_⟩
  · simp [create_event, hany, eventOfCreate]
  · have h1 : store.find? (fun e => e.id == newId) = none :=
      List.find?_eq_none.2 (fun e he => by simpa using h e he)
    have hfind : (store ++ [eventOfCreate newId now payload]).find?
        (fun e => e.id == newId) = some (eventOfCreate newId now payload) := by
      rw [list_find_append_of_none _ _ _ h1]
      simp [List.find?_cons, eventOfCreate]
    simp [get_event, fetchEventRow, hfind]

/-- Witness for C7 (amended): creating the empty-title payload next to an
unrelated event succeeds and a get of the fresh id returns it. -/
theorem create_then_get_witness :
    ∃ ev store',
      create_event [ev1] 7 3 emptyTitleCreate = (.ok ev, store') ∧
      ev.id = 7 ∧ ev.title = emptyTitleCreate.title ∧
      ev.description = emptyTitleCreate.description ∧
      ev.start_date = emptyTitleCreate.start_date ∧
      ev.end_date = emptyTitleCreate.end_date ∧
      ev.location = emptyTitleCreate.location ∧
      ev.image_url = emptyTitleCreate.image_url ∧
      ev.category = emptyTitleCreate.category ∧ ev.created_at = 3 ∧ ev.updated_at = 3 ∧
      ev.created_at = ev.updated_at ∧
      get_event store' true 7 = .ok ev :=
  create_then_get [ev1] 7 3 emptyTitleCreate (by decide)
